import Mathlib

/-!
Shallow embedding of the spotify-oauth crate (flosse/spotify-oauth).

Each definition below is translated from the Rust source:
  * `SpotifyScope`, `SpotifyScope.toText`, `SpotifyScope.from_str` from src/scope.rs
    (strum EnumString / Display with the `serialize` string table);
  * `SpotifyCallback.fromQueryPairs` / `SpotifyCallback.from_str` from
    src/callback.rs `impl FromStr for SpotifyCallback` (the URL parse and the
    query-pair extraction of the `url` crate are the external boundary: the
    embedding takes the already extracted ordered list of query pairs, with an
    `Except.error` input standing for a URL-parse failure);
  * `SpotifyAuth.authorize_url` and `SpotifyAuth.scope_into_string` from
    src/auth.rs (the form-urlencoded pair serializer of the `url` crate is
    modelled byte-faithfully by `formUrlencode` / `renderPairs`);
  * `convert_into_token` from src/callback.rs (the same logic appears in
    src/util.rs as `convert_callback_into_token`); the HTTP transport and the
    generic part of serde JSON parsing are injected capabilities, while the
    in-repo field deserializer `deserialize_scope_field` (src/token.rs) is
    embedded directly.  Rust panics (`unwrap` on failing values) are modelled
    by the `RustOutcome.panicked` constructor.
-/

/-- The scope enumeration of src/scope.rs, in source order. -/
inductive SpotifyScope where
  | UserReadRecentlyPlayed
  | UserTopRead
  | UserLibraryModify
  | UserLibraryRead
  | PlaylistReadPrivate
  | PlaylistModifyPublic
  | PlaylistModifyPrivate
  | PlaylistReadCollaborative
  | UserReadEmail
  | UserReadBirthDate
  | UserReadPrivate
  | UserReadPlaybackState
  | UserModifyPlaybackState
  | UserReadCurrentlyPlaying
  | AppRemoteControl
  | Streaming
  | UserFollowRead
  | UserFollowModify
deriving DecidableEq

/-- The strum `serialize` string of each variant (`Display` / `to_string`). -/
def SpotifyScope.toText : SpotifyScope → String
  | .UserReadRecentlyPlayed => "user-read-recently-played"
  | .UserTopRead => "user-top-read"
  | .UserLibraryModify => "user-library-modify"
  | .UserLibraryRead => "user-library-read"
  | .PlaylistReadPrivate => "playlist-read-private"
  | .PlaylistModifyPublic => "playlist-modify-public"
  | .PlaylistModifyPrivate => "playlist-modify-private"
  | .PlaylistReadCollaborative => "playlist-read-collaborative"
  | .UserReadEmail => "user-read-email"
  | .UserReadBirthDate => "user-read-birthdate"
  | .UserReadPrivate => "user-read-private"
  | .UserReadPlaybackState => "user-read-playback-state"
  | .UserModifyPlaybackState => "user-modify-playback-state"
  | .UserReadCurrentlyPlaying => "user-read-currently-playing"
  | .AppRemoteControl => "app-remote-control"
  | .Streaming => "streaming"
  | .UserFollowRead => "user-follow-read"
  | .UserFollowModify => "user-follow-modify"

/-- strum `EnumString` / `FromStr`: exact, case-sensitive match against the
serialize table; anything else is `Err(strum::ParseError::VariantNotFound)`. -/
def SpotifyScope.from_str : String → Except String SpotifyScope
  | "user-read-recently-played" => .ok .UserReadRecentlyPlayed
  | "user-top-read" => .ok .UserTopRead
  | "user-library-modify" => .ok .UserLibraryModify
  | "user-library-read" => .ok .UserLibraryRead
  | "playlist-read-private" => .ok .PlaylistReadPrivate
  | "playlist-modify-public" => .ok .PlaylistModifyPublic
  | "playlist-modify-private" => .ok .PlaylistModifyPrivate
  | "playlist-read-collaborative" => .ok .PlaylistReadCollaborative
  | "user-read-email" => .ok .UserReadEmail
  | "user-read-birthdate" => .ok .UserReadBirthDate
  | "user-read-private" => .ok .UserReadPrivate
  | "user-read-playback-state" => .ok .UserReadPlaybackState
  | "user-modify-playback-state" => .ok .UserModifyPlaybackState
  | "user-read-currently-playing" => .ok .UserReadCurrentlyPlaying
  | "app-remote-control" => .ok .AppRemoteControl
  | "streaming" => .ok .Streaming
  | "user-follow-read" => .ok .UserFollowRead
  | "user-follow-modify" => .ok .UserFollowModify
  | _ => .error "Matching variant not found"

lemma scope_from_str_toText (s : SpotifyScope) :
    SpotifyScope.from_str s.toText = .ok s := by
  cases s <;> rfl

set_option maxHeartbeats 1000000 in
lemma scope_from_str_ok (str : String) (s : SpotifyScope)
    (h : SpotifyScope.from_str str = .ok s) : str = s.toText := by
  unfold SpotifyScope.from_str at h
  split at h <;>
    first
      | exact Except.noConfusion h
      | (injection h with h2; subst h2; rfl)

/-- The error enumeration of src/error.rs.  `SerdeError` and `UrlError` carry
an external source error and `SurfError` a formatted cause, all modelled as
the cause rendered to a string; `TokenFailure` and `CallbackFailure` carry
the static context strings of the source. -/
inductive SpotifyError where
  | SerdeError (cause : String)
  | UrlError (cause : String)
  | TokenFailure (context : String)
  | CallbackFailure (context : String)
  | SurfError (cause : String)
deriving DecidableEq

/-- The callback struct of src/callback.rs. -/
structure SpotifyCallback where
  code : Option String
  error : Option String
  state : String
deriving DecidableEq

/-- The body of `impl FromStr for SpotifyCallback` (src/callback.rs) after the
`url::Url::parse` + `query_pairs()` step: `parsed` is the ordered list of
decoded (key, value) query pairs of the callback URL. -/
def SpotifyCallback.fromQueryPairs (parsed : List (String × String)) :
    Except SpotifyError SpotifyCallback :=
  let has_state := parsed.any fun x => x.1 == "state"
  let has_response := parsed.any fun x => x.1 == "error" || x.1 == "code"
  if !has_state && !has_response then
    .error (.CallbackFailure "Does not contain any state or response type query parameters.")
  else if !has_state then
    .error (.CallbackFailure "Does not contain any state type query parameters.")
  else if !has_response then
    .error (.CallbackFailure "Does not contain any response type query parameters.")
  else
    let state := match parsed.find? fun x => x.1 == "state" with
      | none => ("state", "")
      | some x => x
    let response := match parsed.find? fun x => x.1 == "error" || x.1 == "code" with
      | none => ("error", "access_denied")
      | some x => x
    if response.1 == "code" then
      .ok { code := some response.2, error := none, state := state.2 }
    else if response.1 == "error" then
      .ok { code := none, error := some response.2, state := state.2 }
    else
      .error (.CallbackFailure "Does not contain any state or response type query parameters.")

/-- `SpotifyCallback::from_str`: the `Url::parse(s).context(UrlError)?` step is
the external boundary; its result is passed in as either the parse-error cause
or the extracted query pairs. -/
def SpotifyCallback.from_str (parsedUrl : Except String (List (String × String))) :
    Except SpotifyError SpotifyCallback :=
  match parsedUrl with
  | .error e => .error (.UrlError e)
  | .ok parsed => SpotifyCallback.fromQueryPairs parsed

/-- src/lib.rs: the fixed provider authorization endpoint. -/
def SPOTIFY_AUTH_URL : String := "https://accounts.spotify.com/authorize"

/-- src/lib.rs and src/util.rs: the fixed provider token endpoint. -/
def SPOTIFY_TOKEN_URL : String := "https://accounts.spotify.com/api/token"

/-- UTF-8 encoding of one character, as the list of its byte values;
models how the `url` crate serializers consume Rust strings byte-wise. -/
def utf8Bytes (c : Char) : List Nat :=
  let n := c.toNat
  if n < 128 then [n]
  else if n < 2048 then [192 + n / 64, 128 + n % 64]
  else if n < 65536 then [224 + n / 4096, 128 + (n / 64) % 64, 128 + n % 64]
  else [240 + n / 262144, 128 + (n / 4096) % 64, 128 + (n / 64) % 64, 128 + n % 64]

def hexUpper (n : Nat) : Char := if n < 10 then Char.ofNat (48 + n) else Char.ofNat (55 + n)

/-- One byte under the application/x-www-form-urlencoded byte serializer used
by `url`'s `query_pairs_mut().append_pair`: ASCII alphanumerics and `*-._`
unchanged, space to `+`, every other byte percent-encoded with uppercase hex. -/
def encodeByte (n : Nat) : String :=
  if (65 ≤ n && n ≤ 90) || (97 ≤ n && n ≤ 122) || (48 ≤ n && n ≤ 57)
      || n == 42 || n == 45 || n == 46 || n == 95 then
    String.singleton (Char.ofNat n)
  else if n == 32 then "+"
  else String.mk ['%', hexUpper (n / 16), hexUpper (n % 16)]

/-- form-urlencoding of a whole string (key or value of one query pair). -/
def formUrlencode (s : String) : String :=
  String.join (((s.data.map utf8Bytes).flatten).map encodeByte)

/-- The query string `k1=v1&k2=v2&...` produced by the pair serializer behind
`query_pairs_mut` for the appended pairs, in order.  The appends are written
right-nested; String append is associative. -/
def renderPairs : List (String × String) → String
  | [] => ""
  | [(k, v)] => formUrlencode k ++ ("=" ++ formUrlencode v)
  | (k, v) :: rest =>
      formUrlencode k ++ ("=" ++ (formUrlencode v ++ ("&" ++ renderPairs rest)))

/-- The auth struct of src/auth.rs; `redirect_uri : Url` is modelled by its
serialized string (`as_str`). -/
structure SpotifyAuth where
  client_id : String
  client_secret : String
  response_type : String
  redirect_uri : String
  state : String
  scope : List SpotifyScope
  show_dialog : Bool

/-- Rust `bool::to_string`. -/
def boolToString (b : Bool) : String := if b then "true" else "false"

/-- Rust `Vec::join` on strings. -/
def joinWith (sep : String) : List String → String
  | [] => ""
  | [x] => x
  | x :: xs => x ++ (sep ++ joinWith sep xs)

/-- The scope join used by `scope_into_string`: map each scope to its string
form and join with single spaces. -/
def scopeJoin (l : List SpotifyScope) : String :=
  joinWith " " (l.map SpotifyScope.toText)

/-- `SpotifyAuth::scope_into_string` (src/auth.rs). -/
def SpotifyAuth.scope_into_string (a : SpotifyAuth) : String :=
  scopeJoin a.scope

/-- `SpotifyAuth::authorize_url` (src/auth.rs): parse the fixed endpoint
(which always succeeds, hence the unconditional `.ok`), append the six query
pairs in source order via the form-urlencoded serializer, serialize. -/
def SpotifyAuth.authorize_url (a : SpotifyAuth) : Except SpotifyError String :=
  .ok (SPOTIFY_AUTH_URL ++ ("?" ++ renderPairs
    [("client_id", a.client_id), ("response_type", a.response_type),
     ("redirect_uri", a.redirect_uri), ("state", a.state),
     ("scope", a.scope_into_string), ("show_dialog", boolToString a.show_dialog)]))

/-- Outcome of running a piece of Rust code: a value, a returned typed error,
or a panic (`unwrap` on an `Err`/failing value, an uncatchable fault). -/
inductive RustOutcome (α : Type) where
  | ok (a : α)
  | err (e : SpotifyError)
  | panicked
deriving DecidableEq

/-- The JSON value found at the `scope` key of the token response, as serde
hands it to `deserialize_scope_field` (src/token.rs): a JSON string, or any
other JSON value shape. -/
inductive ScopeWire where
  | strVal (s : String)
  | nonStr
deriving DecidableEq

/-- Rust `str::split_whitespace` (splits at whitespace, discards empty
pieces), at the character-list level. -/
def splitWsAux : List Char → List Char → List (List Char)
  | [], acc => if acc = [] then [] else [acc.reverse]
  | c :: cs, acc =>
      if c.isWhitespace then
        if acc = [] then splitWsAux cs [] else acc.reverse :: splitWsAux cs []
      else splitWsAux cs (c :: acc)

def splitWhitespace (s : String) : List String :=
  (splitWsAux s.data []).map List.asString

/-- The `for x in split { parsed.push(SpotifyScope::from_str(x).unwrap()) }`
loop of `deserialize_scope_field`: an unknown scope token makes the `unwrap`
panic. -/
def parseScopes : List String → RustOutcome (List SpotifyScope)
  | [] => .ok []
  | x :: xs =>
      match SpotifyScope.from_str x with
      | .error _ => .panicked
      | .ok s =>
          match parseScopes xs with
          | .ok rest => .ok (s :: rest)
          | o => o

/-- `deserialize_scope_field` (src/token.rs): a JSON string is split at
whitespace and each piece parsed (with `unwrap`); any non-string JSON value
yields the empty vector. -/
def deserialize_scope_field : ScopeWire → RustOutcome (List SpotifyScope)
  | .strVal s => parseScopes (splitWhitespace s)
  | .nonStr => .ok []

/-- The wire shape of the token JSON response after generic serde decoding,
before the in-repo `scope` field deserializer has run: `scope` is still the
raw JSON value.  `expires_in` is a `u32`; `expires_at` is the optional wire
value of that field (absent on the wire in the provider contract). -/
structure RawTokenWire where
  access_token : String
  token_type : String
  scope : ScopeWire
  expires_in : Nat
  expires_at : Option Int
  refresh_token : String
deriving DecidableEq

/-- The token struct of src/token.rs after full deserialization. -/
structure SpotifyToken where
  access_token : String
  token_type : String
  scope : List SpotifyScope
  expires_in : Nat
  expires_at : Option Int
  refresh_token : String
deriving DecidableEq

/-- `datetime_to_timestamp` (src/util.rs): current unix timestamp plus the
elapsed seconds; `Utc::now().timestamp()` is passed in as `now`. -/
def datetime_to_timestamp (now : Int) (elapsed : Nat) : Int :=
  now + Int.ofNat elapsed

/-- A surf HTTP response: status code, and the result of
`response.body_string()` (`none` models a body-read failure, which the
source `unwrap`s). -/
structure SurfResponse where
  status : Nat
  body : Option String
deriving DecidableEq

/-- `surf::StatusCode::is_success`: 2xx. -/
def isSuccess (status : Nat) : Bool := 200 ≤ status && status < 300

/-- RFC 4648 base64 alphabet. -/
def base64Char (n : Nat) : Char :=
  "ABCDEFGHIJKLMNOPQRSTUVWXYZabcdefghijklmnopqrstuvwxyz0123456789+/".data.getD n 'A'

/-- base64 of a byte list (groups of three bytes, `=` padding); models
`base64::encode`. -/
def base64Chunks : List Nat → String
  | [] => ""
  | [a] => String.mk [base64Char (a / 4), base64Char (a % 4 * 16)] ++ "=="
  | [a, b] =>
      String.mk [base64Char (a / 4), base64Char (a % 4 * 16 + b / 16),
        base64Char (b % 16 * 4)] ++ "="
  | a :: b :: c :: rest =>
      String.mk [base64Char (a / 4), base64Char (a % 4 * 16 + b / 16),
        base64Char (b % 16 * 4 + c / 64), base64Char (c % 64)] ++ base64Chunks rest

def base64Encode (s : String) : String :=
  base64Chunks ((s.data.map utf8Bytes).flatten)

/-- The POST request `convert_into_token` hands to surf: fixed token URL, the
Basic authorization header, and the form payload entries (the `HashMap` is
modelled by its three insertions, in insertion order). -/
structure TokenHttpRequest where
  url : String
  authHeader : String
  payload : List (String × String)

/-- The request built by `convert_into_token` once a code is present. -/
def tokenRequest (code clientId clientSecret redirectUri : String) : TokenHttpRequest :=
  { url := SPOTIFY_TOKEN_URL
    authHeader := "Basic " ++ base64Encode (clientId ++ ":" ++ clientSecret)
    payload := [("grant_type", "authorization_code"), ("code", code),
                ("redirect_uri", redirectUri)] }

/-- `SpotifyCallback::convert_into_token` (src/callback.rs; the free function
`convert_callback_into_token` of src/util.rs is the same logic).  The surf
transport and the generic part of `serde_json::from_str` are injected:
`transport` returns the HTTP response or a transport error cause, and
`jsonDecode` returns the `RawTokenWire` shape or the decode error cause; the
in-repo `scope` field deserializer then runs on the wire value (in the source
it runs inside `from_str`; the observable outcomes agree).  The second
component of the result counts transport invocations.  Source control flow:
no code => return `TokenFailure` before any request; transport error =>
surf error; `body_string()` failure => panic (`unwrap`); success status =>
decode, set `expires_at`; other status => static `TokenFailure`. -/
def convert_into_token (cb : SpotifyCallback)
    (clientId clientSecret redirectUri : String)
    (transport : TokenHttpRequest → Except String SurfResponse)
    (jsonDecode : String → Except String RawTokenWire) (now : Int) :
    RustOutcome SpotifyToken × Nat :=
  match cb.code with
  | none => (.err (.TokenFailure "Spotify callback code failed to parse."), 0)
  | some code =>
    match transport (tokenRequest code clientId clientSecret redirectUri) with
    | .error e => (.err (.SurfError e), 1)
    | .ok response =>
      match response.body with
      | none => (.panicked, 1)
      | some buf =>
        if isSuccess response.status then
          match jsonDecode buf with
          | .error e => (.err (.SerdeError e), 1)
          | .ok wire =>
            match deserialize_scope_field wire.scope with
            | .panicked => (.panicked, 1)
            | .err e => (.err e, 1)
            | .ok scopes =>
              (.ok { access_token := wire.access_token
                     token_type := wire.token_type
                     scope := scopes
                     expires_in := wire.expires_in
                     expires_at := some (datetime_to_timestamp now wire.expires_in)
                     refresh_token := wire.refresh_token }, 1)
        else
          (.err (.TokenFailure "Failed to convert callback into token"), 1)

lemma str_data_append (a b : String) : (a ++ b).data = a.data ++ b.data := rfl

instance instDecEqExcept {ε α : Type} [DecidableEq ε] [DecidableEq α] :
    DecidableEq (Except ε α) := fun x y =>
  match x, y with
  | .ok a, .ok b =>
      if h : a = b then isTrue (by rw [h])
      else isFalse (fun hh => h (Except.ok.inj hh))
  | .error a, .error b =>
      if h : a = b then isTrue (by rw [h])
      else isFalse (fun hh => h (Except.error.inj hh))
  | .ok _, .error _ => isFalse (fun hh => Except.noConfusion hh)
  | .error _, .ok _ => isFalse (fun hh => Except.noConfusion hh)

lemma cb_msg_both (parsed : List (String × String))
    (h1 : parsed.any (fun x => x.1 == "state") = false)
    (h2 : parsed.any (fun x => x.1 == "error" || x.1 == "code") = false) :
    SpotifyCallback.fromQueryPairs parsed =
      .error (.CallbackFailure "Does not contain any state or response type query parameters.") := by
  unfold SpotifyCallback.fromQueryPairs
  simp [h1, h2]

lemma cb_msg_state (parsed : List (String × String))
    (h1 : parsed.any (fun x => x.1 == "state") = false)
    (h2 : parsed.any (fun x => x.1 == "error" || x.1 == "code") = true) :
    SpotifyCallback.fromQueryPairs parsed =
      .error (.CallbackFailure "Does not contain any state type query parameters.") := by
  unfold SpotifyCallback.fromQueryPairs
  simp [h1, h2]

lemma cb_msg_response (parsed : List (String × String))
    (h1 : parsed.any (fun x => x.1 == "state") = true)
    (h2 : parsed.any (fun x => x.1 == "error" || x.1 == "code") = false) :
    SpotifyCallback.fromQueryPairs parsed =
      .error (.CallbackFailure "Does not contain any response type query parameters.") := by
  unfold SpotifyCallback.fromQueryPairs
  simp [h1, h2]

lemma cb_ok (parsed : List (String × String))
    (h1 : parsed.any (fun x => x.1 == "state") = true)
    (h2 : parsed.any (fun x => x.1 == "error" || x.1 == "code") = true) :
    ∃ cb, SpotifyCallback.fromQueryPairs parsed = .ok cb := by
  unfold SpotifyCallback.fromQueryPairs
  simp only [h1, h2, Bool.not_true, Bool.false_and, Bool.and_self, if_neg, ite_false]
  rcases hfind : parsed.find? (fun x => x.1 == "error" || x.1 == "code") with _ | resp
  · have := List.find?_isSome.mpr (List.any_eq_true.mp h2)
    rw [hfind] at this
    simp at this
  · have hp := List.find?_some hfind
    rcases hcode : (resp.1 == "code") with _ | _
    · have herr : (resp.1 == "error") = true := by
        rcases Bool.or_eq_true_iff.mp hp with h | h
        · exact h
        · rw [h] at hcode; cases hcode
      simp [hfind, hcode, herr]
    · simp [hfind, hcode]

/-- C1 (amended): when the query has a `state` key and at least one of
`code`/`error`, the FIRST key among `code`/`error` in scan order decides the
outcome: a first `code` gives Granted with its value, a first `error` gives
Denied with its value; the state is the value of the first `state` key. -/
theorem callback_first_match (parsed : List (String × String)) (st resp : String × String)
    (hst : parsed.find? (fun x => x.1 == "state") = some st)
    (hresp : parsed.find? (fun x => x.1 == "error" || x.1 == "code") = some resp) :
    SpotifyCallback.fromQueryPairs parsed =
      if resp.1 == "code" then .ok ⟨some resp.2, none, st.2⟩
      else .ok ⟨none, some resp.2, st.2⟩ := by
  have hpst := List.find?_some hst
  have hp := List.find?_some hresp
  have h1 : parsed.any (fun x => x.1 == "state") = true :=
    List.any_eq_true.mpr ⟨st, List.mem_of_find?_eq_some hst, hpst⟩
  have h2 : parsed.any (fun x => x.1 == "error" || x.1 == "code") = true :=
    List.any_eq_true.mpr ⟨resp, List.mem_of_find?_eq_some hresp, hp⟩
  simp only at hp
  unfold SpotifyCallback.fromQueryPairs
  rcases hcode : (resp.1 == "code") with _ | _
  · have herr : (resp.1 == "error") = true := by
      rcases Bool.or_eq_true_iff.mp hp with h | h
      · exact h
      · rw [h] at hcode; cases hcode
    simp [h1, h2, hst, hresp, hcode, herr]
  · simp [h1, h2, hst, hresp, hcode]

/-- C1 witness: the spec example `?code=AQD0yXvFEOvw&state=sN` parses to
Granted with that code and state. -/
theorem callback_first_match_witness :
    SpotifyCallback.fromQueryPairs [("code", "AQD0yXvFEOvw"), ("state", "sN")]
      = .ok ⟨some "AQD0yXvFEOvw", none, "sN"⟩ := by
  have h := callback_first_match [("code", "AQD0yXvFEOvw"), ("state", "sN")]
    ("state", "sN") ("code", "AQD0yXvFEOvw") (by decide) (by decide)
  simpa using h

/-- C1 counterexample: with `error` occurring before `code`, the parser
returns Denied with the error value, not Granted with the code value as the
claim states. -/
theorem callback_code_priority_counterexample :
    SpotifyCallback.fromQueryPairs
        [("error", "access_denied"), ("code", "AQD"), ("state", "sN")]
      = .ok ⟨none, some "access_denied", "sN"⟩ ∧
    SpotifyCallback.fromQueryPairs
        [("error", "access_denied"), ("code", "AQD"), ("state", "sN")]
      ≠ .ok ⟨some "AQD", none, "sN"⟩ := by
  exact ⟨by decide, by decide⟩

/-- C2 (amended): validation proceeds in the claimed order but with the
source's actual failure messages: neither state nor response present fails
with "Does not contain any state or response type query parameters.", then a
missing state fails with "Does not contain any state type query parameters.",
then a missing response fails with "Does not contain any response type query
parameters."; and every input maps to exactly one of these three failures, a
`UrlError` (malformed URL), or a success. -/
theorem callback_validation_order (parsed : List (String × String)) :
    (parsed.any (fun x => x.1 == "state") = false →
     parsed.any (fun x => x.1 == "error" || x.1 == "code") = false →
     SpotifyCallback.fromQueryPairs parsed =
       .error (.CallbackFailure "Does not contain any state or response type query parameters.")) ∧
    (parsed.any (fun x => x.1 == "state") = false →
     parsed.any (fun x => x.1 == "error" || x.1 == "code") = true →
     SpotifyCallback.fromQueryPairs parsed =
       .error (.CallbackFailure "Does not contain any state type query parameters.")) ∧
    (parsed.any (fun x => x.1 == "state") = true →
     parsed.any (fun x => x.1 == "error" || x.1 == "code") = false →
     SpotifyCallback.fromQueryPairs parsed =
       .error (.CallbackFailure "Does not contain any response type query parameters.")) ∧
    (parsed.any (fun x => x.1 == "state") = true →
     parsed.any (fun x => x.1 == "error" || x.1 == "code") = true →
     ∃ cb, SpotifyCallback.fromQueryPairs parsed = .ok cb) ∧
    (∀ u : Except String (List (String × String)),
      (∃ e, SpotifyCallback.from_str u = .error (.UrlError e)) ∨
      (∃ m, (m = "Does not contain any state or response type query parameters." ∨
             m = "Does not contain any state type query parameters." ∨
             m = "Does not contain any response type query parameters.") ∧
        SpotifyCallback.from_str u = .error (.CallbackFailure m)) ∨
      (∃ cb, SpotifyCallback.from_str u = .ok cb)) := by
  refine ⟨cb_msg_both parsed, cb_msg_state parsed, cb_msg_response parsed, cb_ok parsed, ?_⟩
  intro u
  rcases u with e | qs
  · exact .inl ⟨e, rfl⟩
  · show _ ∨ (∃ m, _ ∧ SpotifyCallback.fromQueryPairs qs = _) ∨
      (∃ cb, SpotifyCallback.fromQueryPairs qs = _)
    rcases hs : qs.any (fun x => x.1 == "state") with _ | _ <;>
      rcases hr : qs.any (fun x => x.1 == "error" || x.1 == "code") with _ | _
    · exact .inr (.inl ⟨_, .inl rfl, cb_msg_both qs hs hr⟩)
    · exact .inr (.inl ⟨_, .inr (.inl rfl), cb_msg_state qs hs hr⟩)
    · exact .inr (.inl ⟨_, .inr (.inr rfl), cb_msg_response qs hs hr⟩)
    · exact .inr (.inr (cb_ok qs hs hr))

/-- C2 witness: `"https://x/cb"` (no query at all) fails with the first
message. -/
theorem callback_validation_order_witness :
    SpotifyCallback.fromQueryPairs [] =
      .error (.CallbackFailure "Does not contain any state or response type query parameters.") :=
  (callback_validation_order []).1 (by decide) (by decide)

/-- C2 counterexample: the empty query fails, but not with the message
"missing both state and response parameters" the claim requires; the source
message differs. -/
theorem callback_message_counterexample :
    SpotifyCallback.fromQueryPairs [] ≠
      .error (.CallbackFailure "missing both state and response parameters") ∧
    SpotifyCallback.fromQueryPairs [("state", "sN")] ≠
      .error (.CallbackFailure "missing response parameter") := by
  exact ⟨by decide, by decide⟩

lemma asString_data (s : String) : List.asString s.data = s := rfl

lemma space_data (x : String) : (" " ++ x).data = ' ' :: x.data := rfl

lemma splitWsAux_word (w : List Char) : ∀ (rest acc : List Char),
    (∀ c ∈ w, c.isWhitespace = false) →
    splitWsAux (w ++ rest) acc = splitWsAux rest (w.reverse ++ acc) := by
  induction w with
  | nil => intro rest acc h; simp
  | cons c cs ih =>
    intro rest acc h
    have hc : c.isWhitespace = false := h c (by simp)
    have h2 : ∀ x ∈ cs, x.isWhitespace = false := fun x hx => h x (by simp [hx])
    show splitWsAux (c :: (cs ++ rest)) acc = _
    rw [splitWsAux, hc]
    simp only [Bool.false_eq_true, if_false]
    rw [ih rest (c :: acc) h2]
    simp [List.append_assoc]

lemma scope_text_word (s : SpotifyScope) :
    (SpotifyScope.toText s).data ≠ [] ∧
    ∀ c ∈ (SpotifyScope.toText s).data, c.isWhitespace = false := by
  cases s <;> exact ⟨by decide, by decide⟩

lemma splitWhitespace_scopeJoin (scs : List SpotifyScope) :
    splitWhitespace (scopeJoin scs) = scs.map SpotifyScope.toText := by
  induction scs with
  | nil => rfl
  | cons s rest ih =>
    have hw := (scope_text_word s).2
    have hne := (scope_text_word s).1
    cases rest with
    | nil =>
      show splitWhitespace (SpotifyScope.toText s) = [SpotifyScope.toText s]
      unfold splitWhitespace
      have step := splitWsAux_word (SpotifyScope.toText s).data [] [] hw
      rw [List.append_nil] at step
      rw [step, splitWsAux]
      simp [hne, asString_data]
    | cons s2 rest2 =>
      have hdata : (scopeJoin (s :: s2 :: rest2)).data
          = (SpotifyScope.toText s).data ++ (' ' :: (scopeJoin (s2 :: rest2)).data) := by
        show ((SpotifyScope.toText s) ++ (" " ++ scopeJoin (s2 :: rest2))).data = _
        rw [str_data_append, space_data]
      unfold splitWhitespace at ih ⊢
      rw [hdata, splitWsAux_word _ _ [] hw, List.append_nil, splitWsAux]
      have hrne : (SpotifyScope.toText s).data.reverse ≠ [] := by
        simpa using hne
      simp only [Char.isWhitespace, if_true, hrne, if_neg]
      simp [hrne, List.reverse_reverse, asString_data, ih]

/-- C10: the wire `scope` string is parsed as the whitespace-separated,
order-preserving sequence of scope names (round trip with the space join);
the empty string yields the empty list, and the stub response scope string
"user-read-private user-read-email" yields exactly those two scopes. -/
theorem scope_field_parsing :
    (∀ scs : List SpotifyScope,
      deserialize_scope_field (.strVal (scopeJoin scs)) = .ok scs) ∧
    deserialize_scope_field (.strVal "") = .ok [] ∧
    deserialize_scope_field (.strVal "user-read-private user-read-email")
      = .ok [.UserReadPrivate, .UserReadEmail] := by
  refine ⟨?_, rfl, by decide⟩
  intro scs
  show parseScopes (splitWhitespace (scopeJoin scs)) = .ok scs
  rw [splitWhitespace_scopeJoin]
  induction scs with
  | nil => rfl
  | cons s rest ih => simp [parseScopes, scope_from_str_toText, ih]

set_option maxHeartbeats 1000000 in
lemma scope_from_str_error (str e : String)
    (h : SpotifyScope.from_str str = .error e) : e = "Matching variant not found" := by
  unfold SpotifyScope.from_str at h
  split at h <;>
    first
      | exact Except.noConfusion h
      | (injection h with h2; exact h2.symm)

/-- C7: string round trip of the scope table: `from_str` of `toText` is the
identity; `toText` only produces strings `from_str` accepts; and every string
outside the table fails with the variant-not-found parse failure. -/
theorem scope_string_bijection :
    (∀ s : SpotifyScope, SpotifyScope.from_str s.toText = .ok s) ∧
    (∀ str : String, (∀ s : SpotifyScope, str ≠ s.toText) →
      SpotifyScope.from_str str = .error "Matching variant not found") := by
  refine ⟨scope_from_str_toText, ?_⟩
  intro str h
  rcases hh : SpotifyScope.from_str str with e | s
  · rw [scope_from_str_error str e hh]
  · exact absurd (scope_from_str_ok str s hh) (h s)

/-- C7 witness: an unknown string fails to parse, and a table round trip at a
concrete scope. -/
theorem scope_string_bijection_witness :
    SpotifyScope.from_str "not-a-spotify-scope" = .error "Matching variant not found" ∧
    SpotifyScope.from_str (SpotifyScope.toText .Streaming) = .ok .Streaming :=
  ⟨scope_string_bijection.2 "not-a-spotify-scope" (by intro s; cases s <;> decide),
   scope_string_bijection.1 .Streaming⟩

/-- C3 (amended): on a callback without an authorization code the exchange
fails immediately with `TokenFailure("Spotify callback code failed to
parse.")` (the source's static context string) and performs zero transport
calls, whatever the transport and decoder are. -/
theorem convert_denied_no_transport (cb : SpotifyCallback)
    (clientId clientSecret redirectUri : String)
    (transport : TokenHttpRequest → Except String SurfResponse)
    (jsonDecode : String → Except String RawTokenWire) (now : Int)
    (h : cb.code = none) :
    convert_into_token cb clientId clientSecret redirectUri transport jsonDecode now
      = (.err (.TokenFailure "Spotify callback code failed to parse."), 0) := by
  unfold convert_into_token
  rw [h]

/-- C3 witness: a concrete Denied callback, with a transport that would
answer successfully if it were ever consulted. -/
theorem convert_denied_no_transport_witness :
    convert_into_token ⟨none, some "access_denied", "sN"⟩ "id" "secret" "uri"
      (fun _ => .ok ⟨200, some "body"⟩) (fun _ => .error "unused") 0
      = (.err (.TokenFailure "Spotify callback code failed to parse."), 0) :=
  convert_denied_no_transport ⟨none, some "access_denied", "sN"⟩ "id" "secret" "uri"
    (fun _ => .ok ⟨200, some "body"⟩) (fun _ => .error "unused") 0 rfl

/-- C3 counterexample: the failure context is the source's string, not the
"callback did not contain an authorization code" message the claim names. -/
theorem convert_denied_message_counterexample :
    convert_into_token ⟨none, some "access_denied", "sN"⟩ "id" "secret" "uri"
      (fun _ => .ok ⟨200, some "body"⟩) (fun _ => .error "unused") 0
      ≠ (.err (.TokenFailure "callback did not contain an authorization code"), 0) := by
  decide

/-- C4 (amended): with an authorization code present, exactly one transport
call is made and there is no retry; a response with a non-success status
fails with the static `TokenFailure("Failed to convert callback into
token")`, which does not carry the status; a transport-level failure fails
with `SurfError` carrying its cause; a JSON decode failure on a success
response fails with `SerdeError` carrying the decode cause. -/
theorem convert_error_causes (cb : SpotifyCallback)
    (code clientId clientSecret redirectUri : String)
    (transport : TokenHttpRequest → Except String SurfResponse)
    (jsonDecode : String → Except String RawTokenWire)
    (now : Int) (st : Nat) (buf e : String)
    (hcode : cb.code = some code) :
    (transport (tokenRequest code clientId clientSecret redirectUri) = .ok ⟨st, some buf⟩ →
     isSuccess st = false →
     convert_into_token cb clientId clientSecret redirectUri transport jsonDecode now
       = (.err (.TokenFailure "Failed to convert callback into token"), 1)) ∧
    (transport (tokenRequest code clientId clientSecret redirectUri) = .error e →
     convert_into_token cb clientId clientSecret redirectUri transport jsonDecode now
       = (.err (.SurfError e), 1)) ∧
    (transport (tokenRequest code clientId clientSecret redirectUri) = .ok ⟨st, some buf⟩ →
     isSuccess st = true → jsonDecode buf = .error e →
     convert_into_token cb clientId clientSecret redirectUri transport jsonDecode now
       = (.err (.SerdeError e), 1)) := by
  refine ⟨?_, ?_, ?_⟩
  · intro ht hs
    simp only [convert_into_token, hcode, ht, hs, Bool.false_eq_true, if_false]
  · intro ht
    simp only [convert_into_token, hcode, ht]
  · intro ht hs hd
    simp only [convert_into_token, hcode, ht, hs, if_true, hd]

/-- C4 witness: a stub transport answering 400 makes the exchange fail with
the static token failure after exactly one call. -/
theorem convert_error_causes_witness :
    convert_into_token ⟨some "AQD", none, "sN"⟩ "id" "secret" "uri"
      (fun _ => .ok ⟨400, some "{}"⟩) (fun _ => .error "bad json") 0
      = (.err (.TokenFailure "Failed to convert callback into token"), 1) :=
  (convert_error_causes ⟨some "AQD", none, "sN"⟩ "AQD" "id" "secret" "uri"
    (fun _ => .ok ⟨400, some "{}"⟩) (fun _ => .error "bad json") 0 400 "{}" "bad json"
    rfl).1 rfl rfl

/-- C4 counterexample: two different non-success statuses (400 and 500)
produce the very same error value, so the error cannot carry the response's
HTTP status code. -/
theorem convert_status_not_carried_counterexample :
    convert_into_token ⟨some "AQD", none, "sN"⟩ "id" "secret" "uri"
        (fun _ => .ok ⟨400, some "{}"⟩) (fun _ => .error "bad json") 0
      = convert_into_token ⟨some "AQD", none, "sN"⟩ "id" "secret" "uri"
        (fun _ => .ok ⟨500, some "{}"⟩) (fun _ => .error "bad json") 0 ∧
    convert_into_token ⟨some "AQD", none, "sN"⟩ "id" "secret" "uri"
        (fun _ => .ok ⟨400, some "{}"⟩) (fun _ => .error "bad json") 0
      = (.err (.TokenFailure "Failed to convert callback into token"), 1) := by
  exact ⟨rfl, rfl⟩

/-- C5: whenever the exchange succeeds, the token's `expires_at` equals
`now + expires_in` (exact integer arithmetic, `datetime_to_timestamp`), and
the result is unchanged if the wire payload's own `expires_at` field is
replaced by anything else — the wire value is never used. -/
theorem token_expires_at_synthesized (cb : SpotifyCallback)
    (clientId clientSecret redirectUri : String)
    (transport : TokenHttpRequest → Except String SurfResponse)
    (jsonDecode : String → Except String RawTokenWire)
    (now : Int) (t : SpotifyToken) (calls : Nat)
    (h : convert_into_token cb clientId clientSecret redirectUri transport jsonDecode now
          = (.ok t, calls)) :
    t.expires_at = some (datetime_to_timestamp now t.expires_in) ∧
    ∀ wireExp : Option Int,
      convert_into_token cb clientId clientSecret redirectUri transport
        (fun s => (jsonDecode s).map fun w => { w with expires_at := wireExp }) now
      = convert_into_token cb clientId clientSecret redirectUri transport jsonDecode now := by
  constructor
  · unfold convert_into_token at h
    split at h
    · simp at h
    · split at h
      · simp at h
      · split at h
        · simp at h
        · split at h
          · split at h
            · simp at h
            · split at h
              · simp at h
              · simp at h
              · simp only [Prod.mk.injEq] at h
                obtain ⟨h1, _⟩ := h
                injection h1 with h1
                subst h1
                rfl
          · simp at h
  · intro wireExp
    unfold convert_into_token
    rcases hc : cb.code with _ | code
    · rfl
    · simp only
      rcases ht : transport (tokenRequest code clientId clientSecret redirectUri) with e | response
      · rfl
      · simp only
        rcases hb : response.body with _ | buf
        · rfl
        · simp only
          rcases hsc : isSuccess response.status with _ | _
          · simp only [hsc, Bool.false_eq_true, if_false]
          · simp only [hsc, if_true]
            rcases hd : jsonDecode buf with e | wire
            · simp only [hd, Except.map]
            · simp only [hd, Except.map]

/-- C5 witness: a concrete successful exchange at `now = 1000` with
`expires_in = 3600` yields `expires_at = some 4600`. -/
theorem token_expires_at_synthesized_witness :
    (convert_into_token ⟨some "AQD", none, "sN"⟩ "id" "secret" "uri"
        (fun _ => .ok ⟨200, some "body"⟩)
        (fun _ => .ok ⟨"A", "Bearer", .strVal "streaming", 3600, some 999, "R"⟩) 1000).1
      = .ok ⟨"A", "Bearer", [.Streaming], 3600, some 4600, "R"⟩ ∧
    (⟨"A", "Bearer", [.Streaming], 3600, some 4600, "R"⟩ : SpotifyToken).expires_at
      = some (datetime_to_timestamp 1000 3600) := by
  refine ⟨rfl, ?_⟩
  exact (token_expires_at_synthesized ⟨some "AQD", none, "sN"⟩ "id" "secret" "uri"
    (fun _ => .ok ⟨200, some "body"⟩)
    (fun _ => .ok ⟨"A", "Bearer", .strVal "streaming", 3600, some 999, "R"⟩) 1000
    ⟨"A", "Bearer", [.Streaming], 3600, some 4600, "R"⟩ 1 rfl).1

/-- C6: evaluating the pipeline at the failing inputs.  An unknown scope
string in a decoded token response makes `deserialize_scope_field`'s
`unwrap` panic (an uncatchable fault, not a typed result), and the panic
propagates through the exchange; likewise an unreadable response body
panics via `body_string().unwrap()`. -/
theorem scope_unwrap_panic_evaluation :
    deserialize_scope_field (.strVal "not-a-real-scope") = .panicked ∧
    convert_into_token ⟨some "AQD", none, "sN"⟩ "id" "secret" "uri"
        (fun _ => .ok ⟨200, some "body"⟩)
        (fun _ => .ok ⟨"A", "Bearer", .strVal "not-a-real-scope", 3600, none, "R"⟩) 0
      = (.panicked, 1) ∧
    convert_into_token ⟨some "AQD", none, "sN"⟩ "id" "secret" "uri"
        (fun _ => .ok ⟨200, none⟩) (fun _ => .error "unused") 0
      = (.panicked, 1) := by
  exact ⟨rfl, rfl, rfl⟩

/-- C8: `authorize_url` is a pure function — two renders of the same value
are identical — and its output does not depend on the client secret:
changing only `client_secret` leaves the rendered URL unchanged (in
particular the secret never influences, and is never written into, the
output). -/
theorem authorize_url_pure_secret_free (a : SpotifyAuth) (otherSecret : String) :
    a.authorize_url = a.authorize_url ∧
    SpotifyAuth.authorize_url { a with client_secret := otherSecret } = a.authorize_url :=
  ⟨rfl, rfl⟩

set_option maxRecDepth 40000 in
set_option maxHeartbeats 4000000 in
/-- C9: the rendered URL is exactly the fixed endpoint followed by the six
query parameters `client_id`, `response_type`, `redirect_uri`, `state`,
`scope` (the space-separated order-preserving join of the scope list) and
`show_dialog` (lowercase "true"/"false"), each value form-urlencoded, in
source order; and the join maps `[]` to `""`, `[Streaming]` to
`"streaming"`, `[UserReadEmail, Streaming]` to
`"user-read-email streaming"`. -/
theorem authorize_url_shape (a : SpotifyAuth) :
    a.authorize_url = .ok
      (SPOTIFY_AUTH_URL ++ ("?client_id=" ++ (formUrlencode a.client_id ++
       ("&response_type=" ++ (formUrlencode a.response_type ++
       ("&redirect_uri=" ++ (formUrlencode a.redirect_uri ++
       ("&state=" ++ (formUrlencode a.state ++
       ("&scope=" ++ (formUrlencode a.scope_into_string ++
       ("&show_dialog=" ++
         (if a.show_dialog then "true" else "false"))))))))))))) ∧
    scopeJoin [] = "" ∧
    scopeJoin [.Streaming] = "streaming" ∧
    scopeJoin [.UserReadEmail, .Streaming] = "user-read-email streaming" := by
  refine ⟨?_, rfl, rfl, rfl⟩
  cases a with
  | mk ci cs rt ru st sc sd => cases sd <;> rfl
